import Mathlib

/-!
Verification of the conversion/ownership core of `russimp_glam` (`src/lib.rs`).

Shallow embedding conventions:

* A raw C pointer `*mut T` is modelled by `Ptr α`: either `null`, or `valid buf`
  where `buf : Nat → α` gives the contents of the buffer the pointer points to
  (`buf i` is the `i`-th element reachable from the pointer; a pointer to a
  single struct is read at index `0`).
* `f32` fields are modelled by `Rat`.  Every embedded function only moves these
  values around (field-wise copies, no arithmetic), so the claims proved here
  are independent of the concrete float representation.
* A Rust `panic!` (from `Option::unwrap` on `None`) is modelled by returning
  `none` from a function whose result type is wrapped in `Option`; `some r`
  means the Rust function returns normally with result `r`.
* Generic trait bounds (`TComponent: From<&TRaw>`, `ConvertInto`, …) are
  modelled by an explicit conversion-function argument `conv`.
-/

/-- Model of a raw pointer `*mut α`: null, or a valid pointer to a buffer whose
element at offset `i` is `buf i`. -/
inductive Ptr (α : Type u) : Type u where
  | null : Ptr α
  | valid : (Nat → α) → Ptr α

/-- Model of `<*mut α>::is_null()`. -/
def Ptr.isNull : Ptr α → Bool
  | .null => true
  | .valid _ => false

/-- Model of `unsafe { p.as_ref() }` where the reference is then read as a
value: `none` iff the pointer is null, otherwise the pointee. -/
def Ptr.as_ref : Ptr α → Option α
  | .null => none
  | .valid buf => some (buf 0)

/-- Model of `unsafe { p.as_mut() }` where the resulting reference is used as a
pointer again (re-borrowed to `*mut α`): `none` iff null, otherwise the same
buffer. -/
def Ptr.as_mut : Ptr α → Option (Nat → α)
  | .null => none
  | .valid buf => some buf

/-- Model of `std::ptr::slice_from_raw_parts(raw, len)` together with the
`slice.is_null()` check and `unsafe { slice.as_ref() }.unwrap()` that follow it
in every extraction routine: the fat pointer is null exactly when the base
pointer is (`none` case); otherwise it denotes the `len`-element slice
`[buf 0, …, buf (len-1)]`.  The `unwrap` cannot panic: it is reached only after
the null check. -/
def slice_from_raw_parts (raw : Ptr α) (len : Nat) : Option (List α) :=
  match raw with
  | .null => none
  | .valid buf => some ((List.range len).map buf)

/-- Model of collecting an iterator whose items come from `Option::unwrap`:
the whole collect panics (`none`) as soon as one item is `none`, and otherwise
returns the list of unwrapped values. -/
def collectAll : List (Option α) → Option (List α)
  | [] => some []
  | none :: _ => none
  | some x :: rest => (collectAll rest).map (fun xs => x :: xs)

/-- `utils::get_raw`: `unsafe { raw.as_ref() }.map(|x| x.into())`. -/
def get_raw (raw : Ptr TRaw) (conv : TRaw → TComponent) : Option TComponent :=
  (raw.as_ref).map conv

/-- `utils::get_vec`: slice construction, null check returning `vec![]`, then
`raw.iter().map(|x| x.into()).collect()`. -/
def get_vec (raw : Ptr TRaw) (len : Nat) (conv : TRaw → TComponent) :
    List TComponent :=
  match slice_from_raw_parts raw len with
  | none => []
  | some s => s.map conv

/-- `utils::get_vec_2`: identical control flow to `get_vec` but converting each
element with `ConvertInto::convert_into` (and collecting through the standard
element-wise `FromIterator`, which is the instance used at every call site). -/
def get_vec_2 (raw : Ptr TRaw) (len : Nat) (conv : TRaw → T) : List T :=
  match slice_from_raw_parts raw len with
  | none => []
  | some s => s.map conv

/-- `utils::get_raw_vec`: slice construction, null check returning `vec![]`,
then `raw.to_vec()` (element-wise `Clone`, modelled as the identity copy). -/
def get_raw_vec (raw : Ptr TRaw) (len : Nat) : List TRaw :=
  match slice_from_raw_parts raw len with
  | none => []
  | some s => s

/-- `utils::get_vec_from_raw`: slice of `num_raw_items` element pointers, null
check returning `vec![]`, then
`raw.iter().map(|x| (unsafe { x.as_ref() }.unwrap()).into()).collect()`.
The `unwrap` of an element pointer can panic (modelled by the outer `none`). -/
def get_vec_from_raw (raw_source : Ptr (Ptr TRaw)) (num_raw_items : Nat)
    (conv : TRaw → TComponent) : Option (List TComponent) :=
  match slice_from_raw_parts raw_source num_raw_items with
  | none => some []
  | some s => collectAll (s.map (fun x => (x.as_ref).map conv))

/-- `utils::get_base_type_vec_from_raw`: like `get_vec_from_raw` but the
dereferenced element is returned as-is
(`raw.iter().map(|x| unsafe { x.as_ref() }.unwrap()).collect()`). -/
def get_base_type_vec_from_raw (data : Ptr (Ptr TRaw)) (len : Nat) :
    Option (List TRaw) :=
  match slice_from_raw_parts data len with
  | none => some []
  | some s => collectAll (s.map Ptr.as_ref)

/-- `utils::get_vec_of_vecs_from_raw`: over the fixed 8-slot array,
`raw.iter().map(|head| unsafe { head.as_mut() }.map(|head| get_vec(head, len))).collect()`. -/
def get_vec_of_vecs_from_raw (raw : Fin 8 → Ptr TRaw) (len : Nat)
    (conv : TRaw → TComponent) : List (Option (List TComponent)) :=
  (List.finRange 8).map
    (fun i => ((raw i).as_mut).map (fun head => get_vec (Ptr.valid head) len conv))

/-- `utils::get_vec_of_vecs_from_raw_2`: same 8-slot walk, delegating to
`get_vec_2` for each non-null slot. -/
def get_vec_of_vecs_from_raw_2 (raw : Fin 8 → Ptr TRaw) (len : Nat)
    (conv : TRaw → T) : List (Option (List T)) :=
  (List.finRange 8).map
    (fun i => ((raw i).as_mut).map (fun head => get_vec_2 (Ptr.valid head) len conv))

/-- Count of non-null slots among the 8 channel slots (the quantity the
channel-array claims talk about). -/
def nonNullSlotCount (raw : Fin 8 → Ptr TRaw) : Nat :=
  (List.finRange 8).countP (fun i => !(raw i).isNull)

/-- `f32` fields, modelled by `Rat` (only copied, never computed with). -/
abbrev F32 := Rat

/-- Native `aiVector3D` (fields `x`, `y`, `z`). -/
structure aiVector3D where
  x : F32
  y : F32
  z : F32
deriving DecidableEq

/-- Native `aiVector2D` (fields `x`, `y`). -/
structure aiVector2D where
  x : F32
  y : F32
deriving DecidableEq

/-- Native `aiColor3D` (fields `r`, `g`, `b`). -/
structure aiColor3D where
  r : F32
  g : F32
  b : F32
deriving DecidableEq

/-- Native `aiColor4D` (fields `r`, `g`, `b`, `a`). -/
structure aiColor4D where
  r : F32
  g : F32
  b : F32
  a : F32
deriving DecidableEq

/-- Native `aiAABB` (fields `mMin`, `mMax`). -/
structure aiAABB where
  mMin : aiVector3D
  mMax : aiVector3D
deriving DecidableEq

/-- Native `aiMatrix4x4`, row-major fields `a1..d4`. -/
structure aiMatrix4x4 where
  a1 : F32
  a2 : F32
  a3 : F32
  a4 : F32
  b1 : F32
  b2 : F32
  b3 : F32
  b4 : F32
  c1 : F32
  c2 : F32
  c3 : F32
  c4 : F32
  d1 : F32
  d2 : F32
  d3 : F32
  d4 : F32
deriving DecidableEq

/-- glam `Vec2`. -/
structure Vec2 where
  x : F32
  y : F32
deriving DecidableEq

/-- glam `Vec2::new`. -/
def Vec2.new (x y : F32) : Vec2 := ⟨x, y⟩

/-- glam `Vec3`. -/
structure Vec3 where
  x : F32
  y : F32
  z : F32
deriving DecidableEq

/-- glam `Vec3::new`. -/
def Vec3.new (x y z : F32) : Vec3 := ⟨x, y, z⟩

/-- glam `Vec4`. -/
structure Vec4 where
  x : F32
  y : F32
  z : F32
  w : F32
deriving DecidableEq

/-- glam `vec4(x, y, z, w)`. -/
def vec4 (x y z w : F32) : Vec4 := ⟨x, y, z, w⟩

/-- glam `Mat4`: four column vectors `x_axis`, `y_axis`, `z_axis`, `w_axis`. -/
structure Mat4 where
  x_axis : Vec4
  y_axis : Vec4
  z_axis : Vec4
  w_axis : Vec4
deriving DecidableEq

/-- glam `Mat4::from_cols`. -/
def Mat4.from_cols (x_axis y_axis z_axis w_axis : Vec4) : Mat4 :=
  ⟨x_axis, y_axis, z_axis, w_axis⟩

/-- glam `Mat4::IDENTITY` = `from_cols(Vec4::X, Vec4::Y, Vec4::Z, Vec4::W)`. -/
def Mat4.IDENTITY : Mat4 :=
  Mat4.from_cols (vec4 1 0 0 0) (vec4 0 1 0 0) (vec4 0 0 1 0) (vec4 0 0 0 1)

/-- `impl ConvertFrom<&aiVector3D> for Vec3`. -/
def Vec3.convert_from (value : aiVector3D) : Vec3 :=
  Vec3.new value.x value.y value.z

/-- `impl ConvertInto<Mat4> for &aiMatrix4x4`. -/
def aiMatrix4x4.convert_into (m : aiMatrix4x4) : Mat4 :=
  Mat4.from_cols
    (vec4 m.a1 m.b1 m.c1 m.d1)
    (vec4 m.a2 m.b2 m.c2 m.d2)
    (vec4 m.a3 m.b3 m.c3 m.d3)
    (vec4 m.a4 m.b4 m.c4 m.d4)

/-- `impl ConvertInto<Vec2> for &aiVector2D`. -/
def aiVector2D.convert_into (v : aiVector2D) : Vec2 :=
  Vec2.new v.x v.y

/-- `impl ConvertInto<Vec3> for &aiVector3D` (and for `aiVector3D` by value). -/
def aiVector3D.convert_into (v : aiVector3D) : Vec3 :=
  Vec3.new v.x v.y v.z

/-- Owned `AABB` (fields `min`, `max`, both glam `Vec3`). -/
structure AABB where
  min : Vec3
  max : Vec3
deriving DecidableEq

/-- `impl From<&aiAABB> for AABB`: `max` and `min` via `convert_into` on the
native vectors. -/
def AABB.from_aiAABB (aabb : aiAABB) : AABB :=
  ⟨aabb.mMin.convert_into, aabb.mMax.convert_into⟩

/-- Owned `Color4D` (fields `r`, `g`, `b`, `a`). -/
structure Color4D where
  r : F32
  g : F32
  b : F32
  a : F32
deriving DecidableEq

/-- `impl From<&aiColor4D> for Color4D`: field-wise copy. -/
def Color4D.from_aiColor4D (color : aiColor4D) : Color4D :=
  ⟨color.r, color.g, color.b, color.a⟩

/-- Owned `Color3D` (fields `r`, `g`, `b`). -/
structure Color3D where
  r : F32
  g : F32
  b : F32
deriving DecidableEq

/-- `impl From<&aiColor3D> for Color3D`: field-wise copy. -/
def Color3D.from_aiColor3D (color : aiColor3D) : Color3D :=
  ⟨color.r, color.g, color.b⟩

/-- Owned `Vector2D` (fields `x`, `y`). -/
structure Vector2D where
  x : F32
  y : F32
deriving DecidableEq

/-- Modelled from the spec: the one-argument conversion constructor of
`Vector2D` from its native counterpart `aiVector2D`.  `src/lib.rs` declares the
`Vector2D` struct but contains no `From<&aiVector2D> for Vector2D` impl; the
crate's other modules (`mesh`, `material`, …, declared in `lib.rs` but whose
files are not in `src/`) may hold it.  Per spec §4.1 the conversion is a
field-wise copy with no validation. -/
def Vector2D.from_aiVector2D (v : aiVector2D) : Vector2D :=
  ⟨v.x, v.y⟩

/-- The `RussimpError` enum. -/
inductive RussimpError : Type where
  | Import : String → RussimpError
  | MetadataError : String → RussimpError
  | MaterialError : String → RussimpError
  | Primitive : String → RussimpError
  | TextureNotFound : RussimpError
deriving DecidableEq

/-- `impl Display for RussimpError`: the `Import` arm writes its content, the
wildcard arm writes the literal `"unknown error"`.  `write!` into a plain
formatter cannot fail or panic, so `Display` is modelled as the total function
producing the rendered string. -/
def RussimpError.display : RussimpError → String
  | .Import content => content
  | _ => "unknown error"

/-- Model of `std::str::Utf8Error`.  `lib.rs` only ever calls `to_string()`
(its std `Display` rendering) on it, so that rendering is abstracted as the
field `displayText`. -/
structure Utf8Error where
  displayText : String

/-- Model of `std::ffi::IntoStringError`; as with `Utf8Error`, only its
`Display` rendering `displayText` is relevant. -/
structure IntoStringError where
  displayText : String

/-- `impl From<Utf8Error> for RussimpError`: `Primitive(val.to_string())`. -/
def RussimpError.from_Utf8Error (val : Utf8Error) : RussimpError :=
  RussimpError.Primitive val.displayText

/-- `impl From<IntoStringError> for RussimpError`: `Primitive(val.to_string())`. -/
def RussimpError.from_IntoStringError (val : IntoStringError) : RussimpError :=
  RussimpError.Primitive val.displayText

theorem collectAll_map_some (g : α → β) (l : List α) :
    collectAll (l.map (fun a => some (g a))) = some (l.map g) := by
  induction l with
  | nil => rfl
  | cons a t ih => simp [collectAll, ih]

theorem collectAll_eq_none (l : List (Option α)) (h : none ∈ l) :
    collectAll l = none := by
  induction l with
  | nil => cases h
  | cons a t ih =>
    cases h with
    | head => rfl
    | tail _ hmem =>
      cases a with
      | none => rfl
      | some x => simp [collectAll, ih hmem]

theorem list_countP_map (p : β → Bool) (f : α → β) (l : List α) :
    (l.map f).countP p = l.countP (fun a => p (f a)) := by
  induction l with
  | nil => rfl
  | cons a t ih => simp [List.countP_cons, ih]

theorem list_all_map (p : β → Bool) (f : α → β) (l : List α) :
    (l.map f).all p = l.all (fun a => p (f a)) := by
  induction l with
  | nil => rfl
  | cons a t ih => simp [ih]

theorem getD_map_finRange (f : Fin 8 → β) (d : β) (i : Fin 8) :
    ((List.finRange 8).map f).getD i.val d = f i := by
  rw [List.getD_eq_getElem]
  · simp
  · simp [i.isLt]

theorem get_vec_valid (buf : Nat → α) (len : Nat) (conv : α → β) :
    get_vec (Ptr.valid buf) len conv = (List.range len).map (fun i => conv (buf i)) := by
  simp [get_vec, slice_from_raw_parts, List.map_map, Function.comp]

theorem get_vec_2_valid (buf : Nat → α) (len : Nat) (conv : α → β) :
    get_vec_2 (Ptr.valid buf) len conv = (List.range len).map (fun i => conv (buf i)) := by
  simp [get_vec_2, slice_from_raw_parts, List.map_map, Function.comp]

theorem get_raw_vec_valid (buf : Nat → α) (len : Nat) :
    get_raw_vec (Ptr.valid buf) len = (List.range len).map buf := by
  simp [get_raw_vec, slice_from_raw_parts]

theorem length_get_vec (buf : Nat → α) (len : Nat) (conv : α → β) :
    (get_vec (Ptr.valid buf) len conv).length = len := by
  simp [get_vec_valid]

theorem length_get_vec_2 (buf : Nat → α) (len : Nat) (conv : α → β) :
    (get_vec_2 (Ptr.valid buf) len conv).length = len := by
  simp [get_vec_2_valid]

/-- C4: for every native 4×4 matrix with fields `a1..d4`, the conversion to the
target matrix produces columns exactly `(a1,b1,c1,d1)`, `(a2,b2,c2,d2)`,
`(a3,b3,c3,d3)`, `(a4,b4,c4,d4)`; and on the native identity matrix
(`a1=b2=c3=d4=1`, all other fields `0`) it produces the target's identity. -/
theorem C4_matrix_conversion (m : aiMatrix4x4) :
    (m.convert_into).x_axis = vec4 m.a1 m.b1 m.c1 m.d1 ∧
    (m.convert_into).y_axis = vec4 m.a2 m.b2 m.c2 m.d2 ∧
    (m.convert_into).z_axis = vec4 m.a3 m.b3 m.c3 m.d3 ∧
    (m.convert_into).w_axis = vec4 m.a4 m.b4 m.c4 m.d4 ∧
    aiMatrix4x4.convert_into
        ⟨1, 0, 0, 0, 0, 1, 0, 0, 0, 0, 1, 0, 0, 0, 0, 1⟩ = Mat4.IDENTITY :=
  ⟨rfl, rfl, rfl, rfl, by decide⟩

/-- C5: displaying `RussimpError::Import(m)` renders exactly `m`; displaying
any other variant renders the fixed non-empty placeholder `"unknown error"`,
independent of the variant's message (so the message is never part of the
rendering); display is a total function, hence never panics. -/
theorem C5_display (m : String) :
    RussimpError.display (RussimpError.Import m) = m ∧
    RussimpError.display (RussimpError.MetadataError m) = "unknown error" ∧
    RussimpError.display (RussimpError.MaterialError m) = "unknown error" ∧
    RussimpError.display (RussimpError.Primitive m) = "unknown error" ∧
    RussimpError.display RussimpError.TextureNotFound = "unknown error" ∧
    RussimpError.display RussimpError.TextureNotFound ≠ "" :=
  ⟨rfl, rfl, rfl, rfl, rfl, by decide⟩

/-- C6: each value type (`AABB`, `Color3D`, `Color4D`, `Vector2D`) is built
from a reference to its native counterpart by a plain field-wise copy with no
validation; in particular a native color `(r,g,b,a) = (0.1,0.2,0.3,0.4)`
yields a `Color4D` with exactly those four fields. -/
theorem C6_value_type_conversions
    (ab : aiAABB) (c3 : aiColor3D) (c4 : aiColor4D) (v2 : aiVector2D) :
    AABB.from_aiAABB ab
      = ⟨Vec3.new ab.mMin.x ab.mMin.y ab.mMin.z,
         Vec3.new ab.mMax.x ab.mMax.y ab.mMax.z⟩ ∧
    Color3D.from_aiColor3D c3 = ⟨c3.r, c3.g, c3.b⟩ ∧
    Color4D.from_aiColor4D c4 = ⟨c4.r, c4.g, c4.b, c4.a⟩ ∧
    Vector2D.from_aiVector2D v2 = ⟨v2.x, v2.y⟩ ∧
    Color4D.from_aiColor4D ⟨0.1, 0.2, 0.3, 0.4⟩ = ⟨0.1, 0.2, 0.3, 0.4⟩ :=
  ⟨rfl, rfl, rfl, rfl, rfl⟩

/-- C8: converting a UTF-8 decoding failure or a null-terminated-string
ownership failure into `RussimpError` always yields the `Primitive` variant,
carrying exactly the display text of the underlying failure. -/
theorem C8_string_error_conversions (u : Utf8Error) (s : IntoStringError) :
    RussimpError.from_Utf8Error u = RussimpError.Primitive u.displayText ∧
    RussimpError.from_IntoStringError s = RussimpError.Primitive s.displayText :=
  ⟨rfl, rfl⟩

/-- C10: for every non-null base pointer and every length `len`, `get_vec`,
`get_vec_2` and `get_raw_vec` return exactly `len` elements, element `i` being
the conversion (for `get_raw_vec`: the clone) of the `i`-th source element, in
source order. -/
theorem C10_flat_extraction (α β : Type) (conv : α → β) (buf : Nat → α) (len : Nat) :
    (get_vec (Ptr.valid buf) len conv).length = len ∧
    get_vec (Ptr.valid buf) len conv = (List.range len).map (fun i => conv (buf i)) ∧
    (get_vec_2 (Ptr.valid buf) len conv).length = len ∧
    get_vec_2 (Ptr.valid buf) len conv = (List.range len).map (fun i => conv (buf i)) ∧
    (get_raw_vec (Ptr.valid buf) len).length = len ∧
    get_raw_vec (Ptr.valid buf) len = (List.range len).map buf :=
  ⟨length_get_vec buf len conv, get_vec_valid buf len conv,
   length_get_vec_2 buf len conv, get_vec_2_valid buf len conv,
   by simp [get_raw_vec_valid], get_raw_vec_valid buf len⟩

/-- C7: pointer-array extraction: a non-null array descriptor of `n` valid
element pointers yields (without panicking) exactly the `n` converted pointees
in original order; a null array descriptor with any declared length yields the
empty sequence. -/
theorem C7_pointer_array_extraction (α β : Type) (conv : α → β) (n : Nat)
    (bufs : Nat → Nat → α) (len : Nat) :
    get_vec_from_raw (Ptr.valid (fun i => Ptr.valid (bufs i))) n conv
      = some ((List.range n).map (fun i => conv (bufs i 0))) ∧
    get_vec_from_raw (Ptr.null : Ptr (Ptr α)) len conv = some [] := by
  constructor
  · simp only [get_vec_from_raw, slice_from_raw_parts, List.map_map]
    have h : ((fun x => (Ptr.as_ref x).map conv) ∘ fun i => Ptr.valid (bufs i))
        = fun i => some (conv (bufs i 0)) := by
      funext i
      rfl
    rw [h, collectAll_map_some (fun i => conv (bufs i 0)) (List.range n)]
  · rfl

/-- C9: for `get_vec_from_raw` and `get_base_type_vec_from_raw`, a non-null
outer array descriptor containing a null element pointer among its `n` entries
makes the routine panic (the null element is unwrapped) — modelled by the
`none` result — rather than skipping the element or returning an empty
sequence. -/
theorem C9_null_element_panics (α β : Type) (conv : α → β) (n : Nat)
    (obuf : Nat → Ptr α) (i : Nat) (hi : i < n) (hnull : obuf i = Ptr.null) :
    get_vec_from_raw (Ptr.valid obuf) n conv = none ∧
    get_base_type_vec_from_raw (Ptr.valid obuf) n = none := by
  have hmem : obuf i ∈ (List.range n).map obuf :=
    List.mem_map_of_mem obuf (List.mem_range.mpr hi)
  constructor
  · simp only [get_vec_from_raw, slice_from_raw_parts]
    have h2 : (fun x => (Ptr.as_ref x).map conv) (obuf i) = none := by
      rw [hnull]
      rfl
    exact collectAll_eq_none _ (h2 ▸ List.mem_map_of_mem _ hmem)
  · simp only [get_base_type_vec_from_raw, slice_from_raw_parts]
    have h2 : Ptr.as_ref (obuf i) = none := by
      rw [hnull]
      rfl
    exact collectAll_eq_none _ (h2 ▸ List.mem_map_of_mem _ hmem)

/-- Concrete outer buffer for the C9 witness: element pointer 0 is valid,
element pointer 1 is null. -/
def exObuf : Nat → Ptr Nat :=
  fun i => if i = 0 then Ptr.valid (fun _ => 7) else Ptr.null

/-- Witness for C9 at a concrete input: a 2-element pointer array whose second
element pointer is null makes both routines panic. -/
theorem C9_null_element_panics_witness :
    get_vec_from_raw (Ptr.valid exObuf) 2 (fun x : Nat => x) = none ∧
    get_base_type_vec_from_raw (Ptr.valid exObuf) 2 = none :=
  C9_null_element_panics Nat Nat (fun x => x) 2 exObuf 1 (by decide) rfl

/-- C1: degenerate inputs.  For every extraction routine: a null base pointer
(any length) yields an empty sequence (`none` for the single-element
`get_raw`), and a zero length (any pointer) yields an empty sequence; for the
channel-array variants a null slot yields `none` at its index (all-null slots
give 8 `none` entries) and a zero length makes every non-null slot yield
`Some` of the empty sequence.  All results are returned normally: the
panic-modelling routines return `some _`, every other routine is total, and no
result depends on the buffer behind a null pointer or on any buffer when the
length is zero (the buffers `buf`, `obuf`, `slots` are universally
quantified and absent from the right-hand sides). -/
theorem C1_degenerate_inputs (α β : Type) (conv : α → β) (len : Nat)
    (buf : Nat → α) (obuf : Nat → Ptr α) (slots : Fin 8 → Ptr α) :
    get_vec (Ptr.null : Ptr α) len conv = [] ∧
    get_vec (Ptr.valid buf) 0 conv = [] ∧
    get_vec_2 (Ptr.null : Ptr α) len conv = [] ∧
    get_vec_2 (Ptr.valid buf) 0 conv = [] ∧
    get_raw_vec (Ptr.null : Ptr α) len = [] ∧
    get_raw_vec (Ptr.valid buf) 0 = [] ∧
    get_raw (Ptr.null : Ptr α) conv = none ∧
    get_vec_from_raw (Ptr.null : Ptr (Ptr α)) len conv = some [] ∧
    get_vec_from_raw (Ptr.valid obuf) 0 conv = some [] ∧
    get_base_type_vec_from_raw (Ptr.null : Ptr (Ptr α)) len = some [] ∧
    get_base_type_vec_from_raw (Ptr.valid obuf) 0 = some [] ∧
    get_vec_of_vecs_from_raw (fun _ => (Ptr.null : Ptr α)) len conv
      = List.replicate 8 none ∧
    get_vec_of_vecs_from_raw slots 0 conv
      = (List.finRange 8).map (fun i => if (slots i).isNull then none else some []) ∧
    get_vec_of_vecs_from_raw_2 (fun _ => (Ptr.null : Ptr α)) len conv
      = List.replicate 8 none ∧
    get_vec_of_vecs_from_raw_2 slots 0 conv
      = (List.finRange 8).map (fun i => if (slots i).isNull then none else some []) := by
  refine ⟨rfl, ?_, rfl, ?_, rfl, ?_, rfl, rfl, ?_, rfl, ?_, ?_, ?_, ?_, ?_⟩
  · simp [get_vec, slice_from_raw_parts]
  · simp [get_vec_2, slice_from_raw_parts]
  · simp [get_raw_vec, slice_from_raw_parts]
  · simp [get_vec_from_raw, slice_from_raw_parts, collectAll]
  · simp [get_base_type_vec_from_raw, slice_from_raw_parts, collectAll]
  · simp [get_vec_of_vecs_from_raw, Ptr.as_mut, List.map_const']
  · refine List.map_congr_left ?_
    intro i _
    cases hs : slots i with
    | null => rfl
    | valid b => simp [Ptr.as_mut, Ptr.isNull, get_vec, slice_from_raw_parts]
  · simp [get_vec_of_vecs_from_raw_2, Ptr.as_mut, List.map_const']
  · refine List.map_congr_left ?_
    intro i _
    cases hs : slots i with
    | null => rfl
    | valid b => simp [Ptr.as_mut, Ptr.isNull, get_vec_2, slice_from_raw_parts]

/-- C3: each channel-array extraction returns exactly 8 entries, one per slot
in slot order; entry `i` is `none` when slot `i` is null and `Some` of the
array extracted with the shared length when slot `i` is non-null.  Entry `i`
is a function of slot `i` alone (the other 7 slots do not appear in the
right-hand side), so each slot is decided independently. -/
theorem C3_channel_array_slots (α β : Type) (conv : α → β) (len : Nat)
    (raw : Fin 8 → Ptr α) :
    (get_vec_of_vecs_from_raw raw len conv).length = 8 ∧
    (∀ i : Fin 8,
      (get_vec_of_vecs_from_raw raw len conv).getD i.val none
        = match raw i with
          | Ptr.null => none
          | Ptr.valid head => some (get_vec (Ptr.valid head) len conv)) ∧
    (get_vec_of_vecs_from_raw_2 raw len conv).length = 8 ∧
    (∀ i : Fin 8,
      (get_vec_of_vecs_from_raw_2 raw len conv).getD i.val none
        = match raw i with
          | Ptr.null => none
          | Ptr.valid head => some (get_vec_2 (Ptr.valid head) len conv)) := by
  refine ⟨by simp [get_vec_of_vecs_from_raw], ?_, by simp [get_vec_of_vecs_from_raw_2], ?_⟩
  · intro i
    rw [get_vec_of_vecs_from_raw, getD_map_finRange]
    cases raw i with
    | null => rfl
    | valid head => rfl
  · intro i
    rw [get_vec_of_vecs_from_raw_2, getD_map_finRange]
    cases raw i with
    | null => rfl
    | valid head => rfl

/-- Concrete 8-slot array for the C2 counterexample: slot 0 is null, slots
1–7 are valid. -/
def exSlots : Fin 8 → Ptr Nat :=
  fun i => if i.val = 0 then Ptr.null else Ptr.valid (fun _ => 0)

/-- Counterexample to C2 as stated: with one null slot among the 8 and shared
length 1, the returned sequence has length 8 (one entry per slot), while the
count of non-null slots is 7 — the two are not equal. -/
theorem C2_counterexample :
    (get_vec_of_vecs_from_raw exSlots 1 (fun x : Nat => x)).length
      ≠ nonNullSlotCount exSlots := by
  decide

/-- C2 amended: for every 8-slot input array and shared length, the sequence
returned by `get_vec_of_vecs_from_raw` and `get_vec_of_vecs_from_raw_2` has
exactly 8 entries, the number of `Some` entries among them equals the count of
non-null slots, and every `Some` entry contains a vector whose element count
equals the shared declared length. -/
theorem C2_channel_counts (α β : Type) (conv : α → β) (len : Nat)
    (raw : Fin 8 → Ptr α) :
    (get_vec_of_vecs_from_raw raw len conv).length = 8 ∧
    (get_vec_of_vecs_from_raw raw len conv).countP Option.isSome
      = nonNullSlotCount raw ∧
    (get_vec_of_vecs_from_raw raw len conv).all
      (fun o => match o with | none => true | some v => v.length == len) = true ∧
    (get_vec_of_vecs_from_raw_2 raw len conv).length = 8 ∧
    (get_vec_of_vecs_from_raw_2 raw len conv).countP Option.isSome
      = nonNullSlotCount raw ∧
    (get_vec_of_vecs_from_raw_2 raw len conv).all
      (fun o => match o with | none => true | some v => v.length == len) = true := by
  refine ⟨by simp [get_vec_of_vecs_from_raw], ?_, ?_,
    by simp [get_vec_of_vecs_from_raw_2], ?_, ?_⟩
  · rw [get_vec_of_vecs_from_raw, list_countP_map, nonNullSlotCount]
    congr 1
    funext i
    cases raw i with
    | null => rfl
    | valid head => rfl
  · rw [get_vec_of_vecs_from_raw, list_all_map]
    apply List.all_eq_true.mpr
    intro i _
    cases raw i with
    | null => rfl
    | valid head => simp [Ptr.as_mut, length_get_vec]
  · rw [get_vec_of_vecs_from_raw_2, list_countP_map, nonNullSlotCount]
    congr 1
    funext i
    cases raw i with
    | null => rfl
    | valid head => rfl
  · rw [get_vec_of_vecs_from_raw_2, list_all_map]
    apply List.all_eq_true.mpr
    intro i _
    cases raw i with
    | null => rfl
    | valid head => simp [Ptr.as_mut, length_get_vec_2]
